import Mathlib

/-!
# Verification of the Pin Payments gateway adapter

A shallow embedding of `billing/gateways/pin_gateway.py`: decoded JSON
replies are modelled as an inductive `Json` type with insertion-ordered
association lists for objects, Python exceptions as an explicit error
type threaded through `Except`, `Decimal` arithmetic as `ℚ`, and the
Django model layer (absent from the source tree) as explicit record
types and a `Store` of saved entities.  Each public gateway operation
becomes a pure function from its arguments, the decoded transport reply
and the current store to either a Python error or an outcome record
(outbound request, uniform result, emitted notification, new store).
-/

set_option autoImplicit false

/-- A decoded JSON value.  Objects are insertion-ordered key/value lists,
matching Python dict semantics; numbers are modelled as rationals. -/
inductive Json where
  | null
  | bool (b : Bool)
  | num (q : ℚ)
  | str (s : String)
  | obj (fields : List (String × Json))

/-- A JSON object body: an insertion-ordered association list. -/
abbrev JObj := List (String × Json)

/-- `d[k]` lookup on a Python dict: first binding for the key, if any. -/
def jlookup : JObj → String → Option Json
  | [], _ => none
  | (k', v) :: rest, k => if k' = k then some v else jlookup rest k

/-- `k in d` membership test on a Python dict. -/
def jmember (d : JObj) (k : String) : Bool :=
  (jlookup d k).isSome

/-- `d[k] = v` assignment on a Python dict: replaces the value in place if
the key exists (preserving its position), otherwise appends the binding. -/
def jupdate : JObj → String → Json → JObj
  | [], k, v => [(k, v)]
  | (k', v') :: rest, k, v =>
      if k' = k then (k, v) :: rest else (k', v') :: jupdate rest k v

/-- `del d[k]` on a Python dict: removes the binding for the key. -/
def jerase : JObj → String → JObj
  | [], _ => []
  | (k', v) :: rest, k =>
      if k' = k then jerase rest k else (k', v) :: jerase rest k

/-- The Python exceptions the adapter can raise. -/
inductive PyErr where
  | keyError
  | typeError
  | attributeError
  | nameError
  | invalidOperation
deriving DecidableEq

/-- Python truthiness of a decoded JSON value (`bool(v)`): `None`, `False`,
zero, the empty string and the empty dict are falsy. -/
def pyTruthy : Json → Bool
  | Json.null => false
  | Json.bool b => b
  | Json.num q => decide (q ≠ 0)
  | Json.str s => !s.isEmpty
  | Json.obj l => !l.isEmpty

/-- Digit run of a decimal literal accumulated into a natural number;
`none` when the run is empty or a non-digit appears. -/
def parseDigits : List Char → Option (ℕ × ℕ)
  | [] => none
  | c :: rest =>
      if c.isDigit then
        let d := c.toNat - 48
        match parseDigits rest with
        | none => if rest = [] then some (d, 1) else none
        | some (n, len) => some (d * 10 ^ len + n, len + 1)
      else none

/-- `Decimal(s)` on a plain decimal string: optional sign, integer digits,
optional fractional digits.  Anything else raises `InvalidOperation`. -/
def parseDecimal (s : String) : Option ℚ :=
  let core : List Char → Option ℚ := fun cs =>
    match cs.splitOn '.' with
    | [intPart] => (parseDigits intPart).map (fun p => (p.1 : ℚ))
    | [intPart, fracPart] =>
        match parseDigits intPart, parseDigits fracPart with
        | some p, some q => some ((p.1 : ℚ) + (q.1 : ℚ) / (10 ^ q.2 : ℚ))
        | _, _ => none
    | _ => none
  match s.data with
  | '-' :: rest => (core rest).map (fun q => -q)
  | '+' :: rest => core rest
  | cs => core cs

/-- `Decimal(v)` applied to a decoded JSON value: numbers and booleans
convert directly, strings are parsed, everything else raises. -/
def pyDecimal : Json → Except PyErr ℚ
  | Json.num q => .ok q
  | Json.bool b => .ok (if b then 1 else 0)
  | Json.str s =>
      match parseDecimal s with
      | some q => .ok q
      | none => .error .invalidOperation
  | _ => .error .typeError

/-- Python `int()` on an exact decimal value: truncation toward zero. -/
def pyInt (q : ℚ) : ℤ :=
  q.num.tdiv q.den

/-- The integer wire value of a major-unit amount: `int(money*100)`
(pin_gateway.py line 65, before the `str` rendering). -/
def toMinorUnitsVal (money : ℚ) : ℤ :=
  pyInt (money * 100)

/-- `str(int(money*100))`: the minor-unit wire string of an amount. -/
def toMinorUnits (money : ℚ) : String :=
  toString (toMinorUnitsVal money)

/-- `Decimal(wire) / Decimal("100.00")`: the major-unit amount recovered
from a minor-unit wire value (pin_gateway.py lines 108 and 137). -/
def fromMinorUnits (wire : ℤ) : ℚ :=
  (wire : ℚ) / 100

/-- `p` is a leading run of `s` (char-list core of Python `startswith`). -/
def charsStart : List Char → List Char → Bool
  | [], _ => true
  | _ :: _, [] => false
  | a :: as, b :: bs => a == b && charsStart as bs

/-- Python `s.startswith(p)`. -/
def strStarts (p s : String) : Bool :=
  charsStart p.data s.data

/-- `pat` occurs as a contiguous run of `s` (Python `pat in s` on strings). -/
def listHasSub (pat : List Char) : List Char → Bool
  | [] => pat.isEmpty
  | c :: rest => charsStart pat (c :: rest) || listHasSub pat rest

/-- Python `pat in s` for strings: substring containment. -/
def containsSub (pat s : String) : Bool :=
  listHasSub pat.data s.data

/-- `d[k]` on a Python dict raising `KeyError` when the key is absent. -/
def jget (d : JObj) (k : String) : Except PyErr Json :=
  match jlookup d k with
  | some v => .ok v
  | none => .error .keyError

/-- The domain credit card (`billing.CreditCard`): the fields the adapter
reads — PAN, expiry month/year, verification code, first and last name. -/
structure CreditCard where
  number : String
  month : ℕ
  year : ℕ
  verification_value : String
  first_name : String
  last_name : String

/-- `"%02d" % n`: zero-padded two-digit rendering of the expiry month. -/
def pad2 (n : ℕ) : String :=
  if n < 10 then "0" ++ toString n else toString n

/-- The gateway's `default_currency` class attribute. -/
def default_currency : String := "AUD"

/-- `_pin_base(money, options)` (pin_gateway.py lines 63-70): the common
charge payload.  Passing `options=None` (the public default) raises
`AttributeError` at `options.get`; with a dict every field defaults. -/
def pinBaseObj (money : ℚ) (o : JObj) : JObj :=
  [("amount", Json.str (toMinorUnits money)),
   ("email", (jlookup o "email").getD (Json.str "")),
   ("description", (jlookup o "description").getD (Json.str "")),
   ("currency", (jlookup o "currency").getD (Json.str default_currency)),
   ("ip_address", (jlookup o "ip").getD (Json.str ""))]

/-- `_pin_base` dispatch on the `options=None` default. -/
def pin_base (money : ℚ) (options : Option JObj) : Except PyErr JObj :=
  match options with
  | none => .error .attributeError
  | some o => .ok (pinBaseObj money o)

/-- `_pin_card(credit_card, options)` (pin_gateway.py lines 72-86): the
outbound card payload.  `options=None` fails the subscript (`TypeError`),
a missing `billing_address` key raises `KeyError`, and so does any missing
required address sub-field; `address2` alone defaults to the empty string. -/
def pin_card (credit_card : CreditCard) (options : Option JObj) : Except PyErr JObj :=
  match options with
  | none => .error .typeError
  | some o =>
      match jlookup o "billing_address" with
      | none => .error .keyError
      | some (Json.obj address) => do
          let a1 ← jget address "address1"
          let city ← jget address "city"
          let zipc ← jget address "zip"
          let state ← jget address "state"
          let country ← jget address "country"
          .ok [("number", Json.str credit_card.number),
               ("expiry_month", Json.str (pad2 credit_card.month)),
               ("expiry_year", Json.str (toString credit_card.year)),
               ("cvc", Json.str credit_card.verification_value),
               ("name", Json.str (credit_card.first_name ++ " " ++ credit_card.last_name)),
               ("address_line1", a1),
               ("address_line2", (jlookup address "address2").getD (Json.str "")),
               ("address_city", city),
               ("address_postcode", zipc),
               ("address_state", state),
               ("address_country", country)]
      | some _ => .error .typeError

/-- Modelled from the spec: the `PinCard` Django model
(`billing/models/pin_models.py`, not under src/).  Per §3, a StoredCard
persists exactly the wire card fields the model has attributes for — PAN,
expiry, cvc and address fields but not the concatenated `name` — plus
first/last name reattached from the original CreditCard. -/
structure PinCard where
  number : Json
  expiry_month : Json
  expiry_year : Json
  cvc : Json
  address_line1 : Json
  address_line2 : Json
  address_city : Json
  address_postcode : Json
  address_state : Json
  address_country : Json
  first_name : String
  last_name : String

/-- The `PinCard()` build of pin_gateway.py lines 97-102 / 180-185: copy
every card-payload field that has a persisted attribute (all but `name`),
then reattach the names from the original CreditCard. -/
def mkPinCard (payload : JObj) (credit_card : CreditCard) : PinCard :=
  { number := (jlookup payload "number").getD Json.null
    expiry_month := (jlookup payload "expiry_month").getD Json.null
    expiry_year := (jlookup payload "expiry_year").getD Json.null
    cvc := (jlookup payload "cvc").getD Json.null
    address_line1 := (jlookup payload "address_line1").getD Json.null
    address_line2 := (jlookup payload "address_line2").getD Json.null
    address_city := (jlookup payload "address_city").getD Json.null
    address_postcode := (jlookup payload "address_postcode").getD Json.null
    address_state := (jlookup payload "address_state").getD Json.null
    address_country := (jlookup payload "address_country").getD Json.null
    first_name := credit_card.first_name
    last_name := credit_card.last_name }

/-- Modelled from the spec: the `PinCharge` Django model (not under src/).
`fields` holds the response envelope's top-level pairs except the nested
`card`, as copied by the `setattr` loop; `amount` and `error_message` are
the post-processed attribute values (§4.5 Charge build). -/
structure PinCharge where
  card : Option PinCard
  fields : JObj
  amount : ℚ
  error_message : Json

/-- The `PinCharge` build of pin_gateway.py lines 104-109 / 133-138: copy
every envelope field except `card`, then replace `amount` by
`Decimal(amount)/Decimal("100.00")` and falsy `error_message` by `''`.
A missing amount leaves the model attribute unset (`AttributeError`). -/
def mkCharge (cardRef : Option PinCard) (env : JObj) : Except PyErr PinCharge :=
  let fields := jerase env "card"
  match jlookup fields "amount" with
  | none => .error .attributeError
  | some v =>
      match pyDecimal v with
      | .error e => .error e
      | .ok amt =>
          let em := (jlookup fields "error_message").getD Json.null
          .ok { card := cardRef, fields := fields, amount := amt / 100,
                error_message := if pyTruthy em then em else Json.str "" }

/-- Modelled from the spec: the `PinCustomer` Django model (not under
src/).  `fields` holds the copied response pairs (token included); the
card reference points at the most recently stored card (§3 Customer). -/
structure PinCustomer where
  card : Option PinCard
  fields : JObj

/-- The persisted token attribute of a customer, when it is a string. -/
def customerToken (c : PinCustomer) : Option String :=
  match jlookup c.fields "token" with
  | some (Json.str s) => some s
  | _ => none

/-- The `setattr` copy loop of pin_gateway.py lines 193-195: every
envelope pair except `card` overwrites the customer's attribute. -/
def copyCustomerFields (c : PinCustomer) (env : JObj) : PinCustomer :=
  { c with fields := env.foldl (fun fs kv => if kv.1 = "card" then fs else jupdate fs kv.1 kv.2) c.fields }

/-- The external persistence store: the lists of saved entities. -/
structure Store where
  cards : List PinCard
  charges : List PinCharge
  customers : List PinCustomer

/-- `card.save()`: append the new card to the store. -/
def saveCard (st : Store) (c : PinCard) : Store :=
  { st with cards := st.cards ++ [c] }

/-- `charge.save()`: append the new charge to the store. -/
def saveCharge (st : Store) (c : PinCharge) : Store :=
  { st with charges := st.charges ++ [c] }

/-- `customer.save()`: overwrite the looked-up customer in place when one
was found, otherwise append the fresh customer. -/
def saveCustomerAt (st : Store) (idx : Option ℕ) (c : PinCustomer) : Store :=
  match idx with
  | none => { st with customers := st.customers ++ [c] }
  | some i => { st with customers := st.customers.set i c }

/-- Index-tracking search for the first customer with the given token. -/
def findCustomerAux (t : String) : List PinCustomer → ℕ → Option (ℕ × PinCustomer)
  | [], _ => none
  | c :: rest, i =>
      if customerToken c = some t then some (i, c) else findCustomerAux t rest (i + 1)

/-- Modelled from the spec: `PinCustomer.objects.get(token=...)` with the
`DoesNotExist` fallback (pin_gateway.py lines 170-173) — look up an
existing Customer by token, `none` when not found (§4.5; token uniqueness
is the Store's responsibility per §5, so the first match is taken). -/
def findCustomer (st : Store) (t : String) : Option (ℕ × PinCustomer) :=
  findCustomerAux t st.customers 0

/-- Python `str(v)` as used by `'/customers/{0}'.format(...)`; exact for
string tokens, approximate renderings for the other (unused) shapes. -/
def pyStr : Json → String
  | Json.str s => s
  | Json.bool true => "True"
  | Json.bool false => "False"
  | Json.null => "None"
  | Json.num q => toString q.num ++ (if q.den = 1 then "" else "/" ++ toString q.den)
  | Json.obj _ => "{}"

/-- The success flag extracted from the reply envelope once `'response'`
was found (pin_gateway.py lines 55-58): default `True`, overridden by an
explicit `success` entry.  A non-dict envelope fails the `'success' in
resp` test or the subsequent subscript with `TypeError`; a `success`
value that is not boolean-like fails the `SSIG[success]` dict lookup
(`KeyError`), where Python treats `1`/`0` as `True`/`False`. -/
def envSuccess : Json → Except PyErr Bool
  | Json.obj env =>
      match jlookup env "success" with
      | none => .ok true
      | some (Json.bool b) => .ok b
      | some (Json.num q) =>
          if q = 1 then .ok true else if q = 0 then .ok false else .error .keyError
      | some _ => .error .keyError
  | Json.str s => if containsSub "success" s then .error .typeError else .ok true
  | _ => .error .typeError

/-- The uniform result dict `{'status': ..., 'response': ..., 'obj': ...}`
returned by every operation. -/
structure PinResult (α : Type) where
  status : String
  response : Json
  obj : Option α

/-- The one signal sent per call: `signal.send(sender=self,
type=signal_type, response=resp)`, with `success` recording which of the
two signals (`transaction_was_successful` / `..._unsuccessful`) fired. -/
structure Notification where
  success : Bool
  type : String
  payload : Json

/-- `_pin_response(resp, signal_type, obj)` (pin_gateway.py lines 52-61):
classify the reply, send exactly one signal, and build the uniform
result.  The signal is sent before the result is returned; the pure
embedding returns both. -/
def pin_response {α : Type} (resp : JObj) (signal_type : String) (obj : Option α) :
    Except PyErr (PinResult α × Notification) :=
  match jlookup resp "response" with
  | some env =>
      match envSuccess env with
      | .error e => .error e
      | .ok b =>
          .ok ({ status := if b then "SUCCESS" else "FAILURE", response := env, obj := obj },
               { success := b, type := signal_type, payload := env })
  | none =>
      .ok ({ status := "FAILURE", response := Json.obj resp, obj := obj },
           { success := false, type := signal_type, payload := Json.obj resp })

/-- The persistence branches' `response = copy(resp['response'])` followed
by `del response['card']['name']` (pin_gateway.py lines 95-96, 131-132,
178-179).  The copy is shallow, so the delete mutates the card dict shared
with `resp`; the function returns the mutated reply together with the
envelope the branch continues with.  A missing `card` key, a missing
`name` key or a non-dict shape raises. -/
def delCardName (resp : JObj) : Except PyErr (JObj × JObj) :=
  match jlookup resp "response" with
  | none => .error .keyError
  | some (Json.obj env) =>
      match jlookup env "card" with
      | none => .error .keyError
      | some (Json.obj cardObj) =>
          if jmember cardObj "name" then
            let cardObj' := jerase cardObj "name"
            let env' := jupdate env "card" (Json.obj cardObj')
            .ok (jupdate resp "response" (Json.obj env'), env')
          else .error .keyError
      | some _ => .error .typeError
  | some _ => .error .typeError

/-- The wire request an operation sends: HTTP verb, resource path under
the versioned prefix, JSON body. -/
structure Request where
  method : String
  url : String
  body : JObj

/-- The observable outcome of one gateway call: the outbound request, the
uniform result, the emitted notification and the store after the call. -/
structure PinOutcome (α : Type) where
  req : Request
  res : PinResult α
  notif : Notification
  store : Store

/-- `capture`'s outbound body (pin_gateway.py lines 123-127): the common
base plus the token attached under the key selected by its prefix;
unrecognized prefixes attach neither key. -/
def captureData (money : ℚ) (authorization : String) (options : Option JObj) :
    Except PyErr JObj :=
  match pin_base money options with
  | .error e => .error e
  | .ok base =>
      if strStarts "cus_" authorization then
        .ok (jupdate base "customer_token" (Json.str authorization))
      else if strStarts "card_" authorization then
        .ok (jupdate base "card_token" (Json.str authorization))
      else
        .ok base

/-- `purchase(money, credit_card, options, commit)` (pin_gateway.py lines
88-111): POST the base+card payload to `/charges`; when `commit` and the
reply has a `response` envelope, mutate the envelope, persist a new
`PinCard` and a `PinCharge` referencing it, then classify and notify. -/
def purchase (money : ℚ) (credit_card : CreditCard) (options : Option JObj)
    (commit : Bool) (resp : JObj) (st : Store) : Except PyErr (PinOutcome PinCharge) :=
  match pin_base money options with
  | .error e => .error e
  | .ok base =>
      match pin_card credit_card options with
      | .error e => .error e
      | .ok cardPayload =>
          let data := jupdate base "card" (Json.obj cardPayload)
          let req : Request := { method := "post", url := "/charges", body := data }
          if commit && jmember resp "response" then
            match delCardName resp with
            | .error e => .error e
            | .ok (resp', env') =>
                let card := mkPinCard cardPayload credit_card
                let st1 := saveCard st card
                match mkCharge (some card) env' with
                | .error e => .error e
                | .ok charge =>
                    let st2 := saveCharge st1 charge
                    match pin_response resp' "purchase" (some charge) with
                    | .error e => .error e
                    | .ok (res, notif) => .ok { req := req, res := res, notif := notif, store := st2 }
          else
            match pin_response resp "purchase" (none : Option PinCharge) with
            | .error e => .error e
            | .ok (res, notif) => .ok { req := req, res := res, notif := notif, store := st }

/-- `authorize(money, credit_card, options)` (pin_gateway.py lines
113-118): POST the card payload to `/cards`, then evaluate the unbound
name `card` on the return line — every call that builds its payload
raises `NameError` before `_pin_response` can run, so no result, no
notification and no persisted entity is ever produced. -/
def authorize (money : ℚ) (credit_card : CreditCard) (options : Option JObj)
    (resp : JObj) : Except PyErr (PinOutcome PinCard) :=
  match pin_card credit_card options with
  | .error e => .error e
  | .ok _ => .error .nameError

/-- `capture(money, authorization, options, commit)` (pin_gateway.py lines
120-140): POST the base payload with the prefix-dispatched token to
`/charges`; when `commit` and the reply has an envelope, mutate it and
persist a `PinCharge` with no card reference. -/
def capture (money : ℚ) (authorization : String) (options : Option JObj)
    (commit : Bool) (resp : JObj) (st : Store) : Except PyErr (PinOutcome PinCharge) :=
  match captureData money authorization options with
  | .error e => .error e
  | .ok data =>
      let req : Request := { method := "post", url := "/charges", body := data }
      if commit && jmember resp "response" then
        match delCardName resp with
        | .error e => .error e
        | .ok (resp', env') =>
            match mkCharge none env' with
            | .error e => .error e
            | .ok charge =>
                let st1 := saveCharge st charge
                match pin_response resp' "capture" (some charge) with
                | .error e => .error e
                | .ok (res, notif) => .ok { req := req, res := res, notif := notif, store := st1 }
      else
        match pin_response resp "capture" (none : Option PinCharge) with
        | .error e => .error e
        | .ok (res, notif) => .ok { req := req, res := res, notif := notif, store := st }

/-- `store(credit_card, options, commit)` (pin_gateway.py lines 155-197):
PUT `/customers/{token}` when `options['token']` is present, POST
`/customers` otherwise; look up the existing customer by token (a failed
lookup yields `None`); when `commit` and the reply has an envelope,
mutate it, persist a new `PinCard` and upsert the customer with its card
reference set to that card.  The looked-up customer — possibly `None` —
is the `obj` of the result even when the persistence branch is skipped. -/
def store (credit_card : CreditCard) (options : Option JObj) (commit : Bool)
    (resp : JObj) (st : Store) : Except PyErr (PinOutcome PinCustomer) :=
  match options with
  | none => .error .typeError
  | some o =>
      match jlookup o "email" with
      | none => .error .keyError
      | some email =>
          match pin_card credit_card (some o) with
          | .error e => .error e
          | .ok cardPayload =>
              let data : JObj := [("email", email), ("card", Json.obj cardPayload)]
              let req : Request :=
                match jlookup o "token" with
                | some t => { method := "put", url := "/customers/" ++ pyStr t, body := data }
                | none => { method := "post", url := "/customers", body := data }
              let found : Option (ℕ × PinCustomer) :=
                match jlookup o "token" with
                | some t => findCustomer st (pyStr t)
                | none => none
              if commit && jmember resp "response" then
                match delCardName resp with
                | .error e => .error e
                | .ok (resp', env') =>
                    let card := mkPinCard cardPayload credit_card
                    let st1 := saveCard st card
                    let base : PinCustomer :=
                      match found with
                      | none => { card := some card, fields := [] }
                      | some (_, c) => { c with card := some card }
                    let customer := copyCustomerFields base env'
                    let st2 := saveCustomerAt st1 (found.map Prod.fst) customer
                    match pin_response resp' "store" (some customer) with
                    | .error e => .error e
                    | .ok (res, notif) => .ok { req := req, res := res, notif := notif, store := st2 }
              else
                match pin_response resp "store" (found.map Prod.snd) with
                | .error e => .error e
                | .ok (res, notif) => .ok { req := req, res := res, notif := notif, store := st }

/-! ## Association-list lemmas -/

theorem jlookup_jupdate_self (d : JObj) (k : String) (v : Json) :
    jlookup (jupdate d k v) k = some v := by
  induction d with
  | nil => simp [jupdate, jlookup]
  | cons p rest ih =>
      obtain ⟨k', v'⟩ := p
      by_cases h : k' = k
      · simp [jupdate, h, jlookup]
      · simp [jupdate, h, jlookup, ih]

theorem jlookup_jupdate_ne (d : JObj) {k k' : String} (v : Json) (h : k' ≠ k) :
    jlookup (jupdate d k' v) k = jlookup d k := by
  induction d with
  | nil => simp [jupdate, jlookup, h]
  | cons p rest ih =>
      obtain ⟨k'', v''⟩ := p
      by_cases h2 : k'' = k'
      · simp [jupdate, h2, jlookup, h]
      · by_cases h3 : k'' = k
        · simp [jupdate, h2, jlookup, h3, Ne.symm h]
        · simp [jupdate, h2, jlookup, h3, ih]

theorem jlookup_jerase_self (d : JObj) (k : String) :
    jlookup (jerase d k) k = none := by
  induction d with
  | nil => simp [jerase, jlookup]
  | cons p rest ih =>
      obtain ⟨k', v'⟩ := p
      by_cases h : k' = k
      · simp [jerase, h, ih]
      · simp [jerase, h, jlookup, ih]

/-! ## Concrete fixtures used by witnesses and counterexamples -/

/-- A valid test credit card. -/
def ccEx : CreditCard :=
  { number := "4200000000000000", month := 5, year := 2026,
    verification_value := "123", first_name := "John", last_name := "Doe" }

/-- A complete billing address dict. -/
def addrEx : JObj :=
  [("address1", Json.str "1 Test St"), ("city", Json.str "Sydney"),
   ("zip", Json.str "2000"), ("state", Json.str "NSW"), ("country", Json.str "AU")]

/-- Options carrying an email and the full billing address. -/
def optsEx : JObj :=
  [("email", Json.str "buyer@example.com"), ("billing_address", Json.obj addrEx)]

/-- The nested card object of a structured reply. -/
def cardRespEx : JObj :=
  [("name", Json.str "John Doe"), ("token", Json.str "card_tok1")]

/-- A structured reply whose envelope carries `success: false`. -/
def respFailEx : JObj :=
  [("response", Json.obj
      [("success", Json.bool false), ("token", Json.str "ch_1"),
       ("amount", Json.str "999"), ("error_message", Json.null),
       ("card", Json.obj cardRespEx)])]

/-- A structured reply whose envelope carries `success: true`. -/
def respOkEx : JObj :=
  [("response", Json.obj
      [("success", Json.bool true), ("token", Json.str "ch_2"),
       ("amount", Json.str "999"), ("error_message", Json.null),
       ("card", Json.obj cardRespEx)])]

/-- The empty persistence store. -/
def emptyStore : Store := { cards := [], charges := [], customers := [] }

/-! ## C2 — minor-unit round trip -/

/-- C2: for every amount `m` expressible with at most 2 decimal places
(an integer number of minor units), converting to the minor-unit wire
value and back yields `m` again. -/
theorem minor_units_roundtrip (m : ℚ) (h : ∃ k : ℤ, m = (k : ℚ) / 100) :
    fromMinorUnits (toMinorUnitsVal m) = m := by
  obtain ⟨k, rfl⟩ := h
  have h1 : ((k : ℚ) / 100) * 100 = (k : ℚ) := by
    field_simp
  unfold fromMinorUnits toMinorUnitsVal pyInt
  rw [h1, Rat.num_intCast, Rat.den_intCast]
  norm_num

/-- Witness for C2 at the two-decimal amount 9.99. -/
theorem minor_units_roundtrip_witness :
    fromMinorUnits (toMinorUnitsVal (999 / 100 : ℚ)) = 999 / 100 :=
  minor_units_roundtrip (999 / 100) ⟨999, by norm_num⟩

/-! ## C7 — truncation of minor units -/

/-- Counterexample to C7 as stated: the wire value is not
`floor(amount*100)` for every amount — `int()` truncates toward zero, so
at the amount -0.005 the code produces "0" while the floor is -1. -/
theorem minor_units_floor_counterexample :
    toMinorUnits (-1 / 200 : ℚ) = "0" ∧
      toString ⌊(-1 / 200 : ℚ) * 100⌋ = "-1" ∧
      toMinorUnits (-1 / 200 : ℚ) ≠ toString ⌊(-1 / 200 : ℚ) * 100⌋ := by
  have h : (-1 / 200 : ℚ) * 100 = -1 / 2 := by norm_num
  have hn : (-1 / 2 : ℚ).num = -1 := by norm_num
  have hd : (-1 / 2 : ℚ).den = 2 := by norm_num
  have hf : ⌊(-1 / 2 : ℚ)⌋ = -1 := by norm_num
  refine ⟨?_, ?_, ?_⟩ <;>
    simp only [toMinorUnits, toMinorUnitsVal, pyInt, h, hn, hd, hf] <;> decide

/-- C7 amended: `toMinorUnits` truncates toward zero — `floor(amount*100)`
for every nonnegative amount (fractional minor units are discarded, never
rounded), and 10.005 produces "1000", not "1001". -/
theorem minor_units_trunc :
    (∀ m : ℚ, 0 ≤ m → toMinorUnitsVal m = ⌊m * 100⌋) ∧
      toMinorUnits (10005 / 1000 : ℚ) = "1000" := by
  constructor
  · intro m hm
    unfold toMinorUnitsVal pyInt
    rw [Rat.floor_def]
    exact Int.tdiv_eq_ediv (Rat.num_nonneg.mpr (by positivity)) (by positivity)
  · have h : (10005 / 1000 : ℚ) * 100 = 2001 / 2 := by norm_num
    have hn : (2001 / 2 : ℚ).num = 2001 := by norm_num
    have hd : (2001 / 2 : ℚ).den = 2 := by norm_num
    simp only [toMinorUnits, toMinorUnitsVal, pyInt, h, hn, hd]
    decide

/-- Witness for C7's amended universal part at the amount 2.25. -/
theorem minor_units_trunc_witness :
    toMinorUnitsVal (9 / 4 : ℚ) = ⌊(9 / 4 : ℚ) * 100⌋ :=
  minor_units_trunc.1 (9 / 4) (by norm_num)

/-! ## C8 — totality of the charge-base builder -/

/-- Counterexample to C8 as stated: with the public default of no options
(`options=None`), `_pin_base` raises `AttributeError` at `options.get`
instead of returning the payload. -/
theorem pin_base_none_counterexample :
    pin_base (1 : ℚ) none = Except.error PyErr.attributeError :=
  rfl

/-- C8 amended: for every money value and every options dict (possibly
empty), `_pin_base` returns the five-field payload without raising, with
email/description/ip_address defaulted to the empty string and currency
to the default currency when absent; only the `options=None` default
raises. -/
theorem pin_base_total_on_dicts (money : ℚ) (o : JObj) :
    ∃ p, pin_base money (some o) = Except.ok p ∧
      jlookup p "amount" = some (Json.str (toMinorUnits money)) ∧
      jlookup p "email" = some ((jlookup o "email").getD (Json.str "")) ∧
      jlookup p "description" = some ((jlookup o "description").getD (Json.str "")) ∧
      jlookup p "currency" = some ((jlookup o "currency").getD (Json.str default_currency)) ∧
      jlookup p "ip_address" = some ((jlookup o "ip").getD (Json.str "")) := by
  refine ⟨_, rfl, ?_, ?_, ?_, ?_, ?_⟩ <;> simp [pinBaseObj, jlookup]

/-! ## C3 — response classification and notification -/

/-- C3: for every decoded reply, a missing top-level `response` key
classifies FAILURE with the raw reply as payload; a present envelope
defaults to SUCCESS unless an explicit boolean `success` overrides it;
and the one notification returned alongside the result matches the
status and carries the operation tag. -/
theorem classifier_policy {α : Type} (resp : JObj) (sig : String) (obj : Option α) :
    (jmember resp "response" = false →
      pin_response resp sig obj =
        Except.ok ({ status := "FAILURE", response := Json.obj resp, obj := obj },
                   { success := false, type := sig, payload := Json.obj resp })) ∧
    (∀ env : JObj, jlookup resp "response" = some (Json.obj env) →
      jlookup env "success" = none →
      pin_response resp sig obj =
        Except.ok ({ status := "SUCCESS", response := Json.obj env, obj := obj },
                   { success := true, type := sig, payload := Json.obj env })) ∧
    (∀ (env : JObj) (b : Bool), jlookup resp "response" = some (Json.obj env) →
      jlookup env "success" = some (Json.bool b) →
      pin_response resp sig obj =
        Except.ok ({ status := if b then "SUCCESS" else "FAILURE",
                     response := Json.obj env, obj := obj },
                   { success := b, type := sig, payload := Json.obj env })) := by
  refine ⟨?_, ?_, ?_⟩
  · intro h
    have hnone : jlookup resp "response" = none := by
      cases hv : jlookup resp "response" with
      | none => rfl
      | some v => simp [jmember, hv] at h
    simp [pin_response, hnone]
  · intro env h1 h2
    simp [pin_response, h1, envSuccess, h2]
  · intro env b h1 h2
    simp [pin_response, h1, envSuccess, h2]

/-- Witness for C3: a `success: false` envelope classifies FAILURE with a
matching failure notification tagged `purchase`. -/
theorem classifier_policy_witness :
    pin_response respFailEx "purchase" (none : Option PinCharge) =
      Except.ok ({ status := "FAILURE",
                   response := Json.obj
                     [("success", Json.bool false), ("token", Json.str "ch_1"),
                      ("amount", Json.str "999"), ("error_message", Json.null),
                      ("card", Json.obj cardRespEx)], obj := none },
                 { success := false, type := "purchase",
                   payload := Json.obj
                     [("success", Json.bool false), ("token", Json.str "ch_1"),
                      ("amount", Json.str "999"), ("error_message", Json.null),
                      ("card", Json.obj cardRespEx)] }) :=
  (classifier_policy respFailEx "purchase" none).2.2 _ false rfl rfl

/-! ## C4 — capture token-prefix dispatch -/

/-- A string cannot start with both "cus_" and "card_": they differ at
the second character. -/
theorem strStarts_cus_card_exclusive (auth : String) :
    strStarts "cus_" auth = false ∨ strStarts "card_" auth = false := by
  have hcus : "cus_".data = ['c', 'u', 's', '_'] := rfl
  have hcard : "card_".data = ['c', 'a', 'r', 'd', '_'] := rfl
  unfold strStarts
  rw [hcus, hcard]
  cases hd : auth.data with
  | nil => exact Or.inl rfl
  | cons a l1 =>
    cases l1 with
    | nil => exact Or.inl (by simp [charsStart])
    | cons b l2 =>
      by_cases hb : b = 'u'
      · subst hb
        have hau : ('a' == 'u') = false := by decide
        exact Or.inr (by simp [charsStart, hau])
      · have hub : ('u' == b) = false := by
          simp only [beq_eq_false_iff_ne, ne_eq]
          exact fun hh => hb hh.symm
        exact Or.inl (by simp [charsStart, hub])

/-- C4: for every authorization token string (and any options dict), the
capture payload carries `customer_token` exactly when the token starts
with "cus_", `card_token` exactly when it starts with "card_", and
neither key for any other prefix — and the build never raises. -/
theorem capture_token_dispatch (money : ℚ) (auth : String) (o : JObj) :
    ∃ d, captureData money auth (some o) = Except.ok d ∧
      (strStarts "cus_" auth = true →
        jlookup d "customer_token" = some (Json.str auth) ∧
          jlookup d "card_token" = none) ∧
      (strStarts "card_" auth = true →
        jlookup d "card_token" = some (Json.str auth) ∧
          jlookup d "customer_token" = none) ∧
      (strStarts "cus_" auth = false → strStarts "card_" auth = false →
        jlookup d "customer_token" = none ∧ jlookup d "card_token" = none) := by
  by_cases h1 : strStarts "cus_" auth = true
  · refine ⟨jupdate (pinBaseObj money o) "customer_token" (Json.str auth), ?_, ?_, ?_, ?_⟩
    · simp [captureData, pin_base, h1]
    · intro _
      refine ⟨jlookup_jupdate_self _ _ _, ?_⟩
      rw [jlookup_jupdate_ne _ _ (by decide)]
      simp [pinBaseObj, jlookup]
    · intro h2
      rcases strStarts_cus_card_exclusive auth with hc | hc
      · rw [h1] at hc; cases hc
      · rw [h2] at hc; cases hc
    · intro h3 _
      rw [h1] at h3; cases h3
  · have h1' : strStarts "cus_" auth = false := by
      cases hv : strStarts "cus_" auth
      · rfl
      · exact absurd hv h1
    by_cases h2 : strStarts "card_" auth = true
    · refine ⟨jupdate (pinBaseObj money o) "card_token" (Json.str auth), ?_, ?_, ?_, ?_⟩
      · simp [captureData, pin_base, h1', h2]
      · intro hx
        rw [h1'] at hx; cases hx
      · intro _
        refine ⟨jlookup_jupdate_self _ _ _, ?_⟩
        rw [jlookup_jupdate_ne _ _ (by decide)]
        simp [pinBaseObj, jlookup]
      · intro _ h4
        rw [h2] at h4; cases h4
    · have h2' : strStarts "card_" auth = false := by
        cases hv : strStarts "card_" auth
        · rfl
        · exact absurd hv h2
      refine ⟨pinBaseObj money o, ?_, ?_, ?_, ?_⟩
      · simp [captureData, pin_base, h1', h2']
      · intro hx
        rw [h1'] at hx; cases hx
      · intro hx
        rw [h2'] at hx; cases hx
      · intro _ _
        constructor <;> simp [pinBaseObj, jlookup]

/-- Witness for C4 at the customer token "cus_123". -/
theorem capture_token_dispatch_witness :
    ∃ d, captureData (1 : ℚ) "cus_123" (some ([] : JObj)) = Except.ok d ∧
      jlookup d "customer_token" = some (Json.str "cus_123") ∧
        jlookup d "card_token" = none := by
  obtain ⟨d, hd, h1, _, _⟩ := capture_token_dispatch (1 : ℚ) "cus_123" ([] : JObj)
  exact ⟨d, hd, h1 (by decide)⟩

/-! ## C5 — authorize references an unbound name -/

/-- C5 evaluation: on every call whose card payload builds, `authorize`
raises `NameError` at `obj=card` (the name is never bound) instead of
returning a Card-token entity — the tokenize-only success contract of
the spec is unimplementable by this code. -/
theorem authorize_raises_nameError (money : ℚ) (credit_card : CreditCard)
    (options : Option JObj) (resp : JObj) (p : JObj)
    (h : pin_card credit_card options = Except.ok p) :
    authorize money credit_card options resp = Except.error PyErr.nameError := by
  unfold authorize
  rw [h]

/-- Witness for C5: a fully valid authorize call still raises `NameError`. -/
theorem authorize_raises_nameError_witness :
    authorize (1 : ℚ) ccEx (some optsEx) [] = Except.error PyErr.nameError :=
  authorize_raises_nameError 1 ccEx (some optsEx) [] _ rfl

/-! ## Structure lemmas for the classifier and the shallow-copy mutation -/

theorem pin_response_obj {α : Type} (resp : JObj) (sig : String) (obj : Option α)
    (pr : PinResult α × Notification) (h : pin_response resp sig obj = Except.ok pr) :
    pr.1.obj = obj := by
  unfold pin_response at h
  cases hv : jlookup resp "response" with
  | none =>
      simp only [hv, Except.ok.injEq] at h
      rw [← h]
  | some env =>
      cases hs : envSuccess env with
      | error e =>
          simp only [hv, hs] at h
          exact Except.noConfusion h
      | ok b =>
          simp only [hv, hs, Except.ok.injEq] at h
          rw [← h]

theorem pin_response_payload {α : Type} (resp : JObj) (sig : String) (obj : Option α)
    (env : Json) (pr : PinResult α × Notification)
    (hv : jlookup resp "response" = some env) (h : pin_response resp sig obj = Except.ok pr) :
    pr.1.response = env ∧ pr.2.payload = env := by
  unfold pin_response at h
  cases hs : envSuccess env with
  | error e =>
      simp only [hv, hs] at h
      exact Except.noConfusion h
  | ok b =>
      simp only [hv, hs, Except.ok.injEq] at h
      rw [← h]
      exact ⟨rfl, rfl⟩

theorem delCardName_shape (resp : JObj) (resp' env' : JObj)
    (h : delCardName resp = Except.ok (resp', env')) :
    jlookup resp' "response" = some (Json.obj env') ∧
      ∃ cardObj, jlookup env' "card" = some (Json.obj cardObj) ∧
        jlookup cardObj "name" = none := by
  unfold delCardName at h
  cases hv : jlookup resp "response" with
  | none =>
      simp only [hv] at h
      exact Except.noConfusion h
  | some env =>
      cases env with
      | obj envf =>
          cases hc : jlookup envf "card" with
          | none =>
              simp only [hv, hc] at h
              exact Except.noConfusion h
          | some cardv =>
              cases cardv with
              | obj cardObj =>
                  by_cases hn : jmember cardObj "name" = true
                  · simp only [hv, hc, hn, if_true, Except.ok.injEq, Prod.mk.injEq] at h
                    obtain ⟨h1, h2⟩ := h
                    subst h1; subst h2
                    refine ⟨jlookup_jupdate_self _ _ _, jerase cardObj "name", ?_, ?_⟩
                    · exact jlookup_jupdate_self _ _ _
                    · exact jlookup_jerase_self _ _
                  · have hn' : jmember cardObj "name" = false := by
                      cases hx : jmember cardObj "name"
                      · rfl
                      · exact absurd hx hn
                    simp only [hv, hc, hn', Bool.false_eq_true, if_false] at h
                    exact Except.noConfusion h
              | null =>
                  simp only [hv, hc] at h
                  exact Except.noConfusion h
              | bool b =>
                  simp only [hv, hc] at h
                  exact Except.noConfusion h
              | num q =>
                  simp only [hv, hc] at h
                  exact Except.noConfusion h
              | str s =>
                  simp only [hv, hc] at h
                  exact Except.noConfusion h
      | null =>
          simp only [hv] at h
          exact Except.noConfusion h
      | bool b =>
          simp only [hv] at h
          exact Except.noConfusion h
      | num q =>
          simp only [hv] at h
          exact Except.noConfusion h
      | str s =>
          simp only [hv] at h
          exact Except.noConfusion h

theorem delCardName_no_card (resp : JObj) (env : JObj)
    (hv : jlookup resp "response" = some (Json.obj env))
    (hc : jlookup env "card" = none) :
    delCardName resp = Except.error PyErr.keyError := by
  unfold delCardName
  simp only [hv, hc]

/-! ## Branch-structure lemmas for the persisting operations -/

theorem purchase_shape (money : ℚ) (cc : CreditCard) (o : Option JObj) (commit : Bool)
    (resp : JObj) (st : Store) (out : PinOutcome PinCharge)
    (h : purchase money cc o commit resp st = Except.ok out) :
    out.store.customers = st.customers ∧
    ((commit && jmember resp "response") = true →
        out.store.cards.length = st.cards.length + 1 ∧
        out.store.charges.length = st.charges.length + 1 ∧
        out.res.obj.isSome = true ∧
        ∃ env cardObj, out.res.response = Json.obj env ∧ out.notif.payload = Json.obj env ∧
          jlookup env "card" = some (Json.obj cardObj) ∧ jlookup cardObj "name" = none) ∧
    ((commit && jmember resp "response") = false →
        out.store = st ∧ out.res.obj = none) := by
  unfold purchase at h
  cases hb : pin_base money o with
  | error e =>
      simp only [hb] at h
      exact Except.noConfusion h
  | ok base =>
      simp only [hb] at h
      cases hc : pin_card cc o with
      | error e =>
          simp only [hc] at h
          exact Except.noConfusion h
      | ok cp =>
          simp only [hc] at h
          cases hif : (commit && jmember resp "response") with
          | true =>
              rw [hif, if_pos rfl] at h
              cases hd : delCardName resp with
              | error e =>
                  simp only [hd] at h
                  exact Except.noConfusion h
              | ok pe =>
                  obtain ⟨resp', env'⟩ := pe
                  simp only [hd] at h
                  cases hch : mkCharge (some (mkPinCard cp cc)) env' with
                  | error e =>
                      simp only [hch] at h
                      exact Except.noConfusion h
                  | ok charge =>
                      simp only [hch] at h
                      cases hp : pin_response resp' "purchase" (some charge) with
                      | error e =>
                          simp only [hp] at h
                          exact Except.noConfusion h
                      | ok pr =>
                          obtain ⟨res, n⟩ := pr
                          simp only [hp, Except.ok.injEq] at h
                          subst h
                          obtain ⟨hr1, cardObj, hr2, hr3⟩ := delCardName_shape resp resp' env' hd
                          obtain ⟨hp1, hp2⟩ :=
                            pin_response_payload resp' "purchase" (some charge) (Json.obj env') (res, n) hr1 hp
                          refine ⟨rfl, ?_, ?_⟩
                          · intro _
                            refine ⟨?_, ?_, ?_, env', cardObj, hp1, hp2, hr2, hr3⟩
                            · simp [saveCharge, saveCard]
                            · simp [saveCharge, saveCard]
                            · have := pin_response_obj resp' "purchase" (some charge) (res, n) hp
                              simp only at this
                              simp [this]
                          · intro hf
                            exact Bool.noConfusion hf
          | false =>
              rw [hif, if_neg (by decide)] at h
              cases hp : pin_response resp "purchase" (none : Option PinCharge) with
              | error e =>
                  simp only [hp] at h
                  exact Except.noConfusion h
              | ok pr =>
                  obtain ⟨res, n⟩ := pr
                  simp only [hp, Except.ok.injEq] at h
                  subst h
                  refine ⟨rfl, ?_, ?_⟩
                  · intro ht
                    exact Bool.noConfusion ht
                  · intro _
                    have := pin_response_obj resp "purchase" (none : Option PinCharge) (res, n) hp
                    simp only at this
                    exact ⟨rfl, this⟩

theorem capture_shape (money : ℚ) (auth : String) (o : Option JObj) (commit : Bool)
    (resp : JObj) (st : Store) (out : PinOutcome PinCharge)
    (h : capture money auth o commit resp st = Except.ok out) :
    out.store.cards = st.cards ∧
    out.store.customers = st.customers ∧
    ((commit && jmember resp "response") = true →
        out.store.charges.length = st.charges.length + 1 ∧
        out.res.obj.isSome = true ∧
        ∃ env cardObj, out.res.response = Json.obj env ∧ out.notif.payload = Json.obj env ∧
          jlookup env "card" = some (Json.obj cardObj) ∧ jlookup cardObj "name" = none) ∧
    ((commit && jmember resp "response") = false →
        out.store = st ∧ out.res.obj = none) := by
  unfold capture at h
  cases hb : captureData money auth o with
  | error e =>
      simp only [hb] at h
      exact Except.noConfusion h
  | ok data =>
      simp only [hb] at h
      cases hif : (commit && jmember resp "response") with
      | true =>
          rw [hif, if_pos rfl] at h
          cases hd : delCardName resp with
          | error e =>
              simp only [hd] at h
              exact Except.noConfusion h
          | ok pe =>
              obtain ⟨resp', env'⟩ := pe
              simp only [hd] at h
              cases hch : mkCharge none env' with
              | error e =>
                  simp only [hch] at h
                  exact Except.noConfusion h
              | ok charge =>
                  simp only [hch] at h
                  cases hp : pin_response resp' "capture" (some charge) with
                  | error e =>
                      simp only [hp] at h
                      exact Except.noConfusion h
                  | ok pr =>
                      obtain ⟨res, n⟩ := pr
                      simp only [hp, Except.ok.injEq] at h
                      subst h
                      obtain ⟨hr1, cardObj, hr2, hr3⟩ := delCardName_shape resp resp' env' hd
                      obtain ⟨hp1, hp2⟩ :=
                        pin_response_payload resp' "capture" (some charge) (Json.obj env') (res, n) hr1 hp
                      refine ⟨rfl, rfl, ?_, ?_⟩
                      · intro _
                        refine ⟨by simp [saveCharge], ?_, env', cardObj, hp1, hp2, hr2, hr3⟩
                        have := pin_response_obj resp' "capture" (some charge) (res, n) hp
                        simp only at this
                        simp [this]
                      · intro hf
                        exact Bool.noConfusion hf
      | false =>
          rw [hif, if_neg (by decide)] at h
          cases hp : pin_response resp "capture" (none : Option PinCharge) with
          | error e =>
              simp only [hp] at h
              exact Except.noConfusion h
          | ok pr =>
              obtain ⟨res, n⟩ := pr
              simp only [hp, Except.ok.injEq] at h
              subst h
              refine ⟨rfl, rfl, ?_, ?_⟩
              · intro ht
                exact Bool.noConfusion ht
              · intro _
                have := pin_response_obj resp "capture" (none : Option PinCharge) (res, n) hp
                simp only at this
                exact ⟨rfl, this⟩

theorem store_shape (cc : CreditCard) (o : JObj) (commit : Bool) (resp : JObj) (st : Store)
    (out : PinOutcome PinCustomer)
    (h : store cc (some o) commit resp st = Except.ok out) :
    out.store.charges = st.charges ∧
    (∀ t, jlookup o "token" = some t →
        out.req.method = "put" ∧ out.req.url = "/customers/" ++ pyStr t) ∧
    (jlookup o "token" = none →
        out.req.method = "post" ∧ out.req.url = "/customers") ∧
    ((commit && jmember resp "response") = false →
        out.store = st ∧
        out.res.obj = (match jlookup o "token" with
                       | some t => (findCustomer st (pyStr t)).map Prod.snd
                       | none => none)) ∧
    ((commit && jmember resp "response") = true →
        out.store.cards.length = st.cards.length + 1 ∧
        ∃ cp c, pin_card cc (some o) = Except.ok cp ∧
          out.res.obj = some c ∧ c.card = some (mkPinCard cp cc) ∧
          (∃ env cardObj, out.res.response = Json.obj env ∧ out.notif.payload = Json.obj env ∧
            jlookup env "card" = some (Json.obj cardObj) ∧ jlookup cardObj "name" = none) ∧
          (∀ t i c0, jlookup o "token" = some t → findCustomer st (pyStr t) = some (i, c0) →
              out.store.customers = st.customers.set i c) ∧
          (∀ t, jlookup o "token" = some t → findCustomer st (pyStr t) = none →
              out.store.customers = st.customers ++ [c]) ∧
          (jlookup o "token" = none → out.store.customers = st.customers ++ [c])) := by
  unfold store at h
  cases he : jlookup o "email" with
  | none =>
      simp only [he] at h
      exact Except.noConfusion h
  | some email =>
      simp only [he] at h
      cases hcp : pin_card cc (some o) with
      | error e =>
          simp only [hcp] at h
          exact Except.noConfusion h
      | ok cp =>
          simp only [hcp] at h
          cases ht : jlookup o "token" with
          | some t =>
              simp only [ht] at h
              cases hif : (commit && jmember resp "response") with
              | true =>
                  rw [hif, if_pos rfl] at h
                  cases hd : delCardName resp with
                  | error e =>
                      simp only [hd] at h
                      exact Except.noConfusion h
                  | ok pe =>
                      obtain ⟨resp', env'⟩ := pe
                      simp only [hd] at h
                      cases hfc : findCustomer st (pyStr t) with
                      | none =>
                          simp only [hfc, Option.map_none'] at h
                          cases hp : pin_response resp' "store"
                              (some (copyCustomerFields
                                { card := some (mkPinCard cp cc), fields := [] } env')) with
                          | error e =>
                              simp only [hp] at h
                              exact Except.noConfusion h
                          | ok pr =>
                              obtain ⟨res, n⟩ := pr
                              simp only [hp, Except.ok.injEq] at h
                              subst h
                              obtain ⟨hr1, cardObj, hr2, hr3⟩ := delCardName_shape resp resp' env' hd
                              obtain ⟨hp1, hp2⟩ := pin_response_payload resp' "store" _ (Json.obj env') (res, n) hr1 hp
                              have hobj := pin_response_obj resp' "store" _ (res, n) hp
                              simp only at hobj hp1 hp2
                              refine ⟨by simp [saveCustomerAt, saveCard], ?_, ?_, ?_, ?_⟩
                              · intro t' ht'
                                injection ht' with ht''
                                subst ht''
                                exact ⟨rfl, rfl⟩
                              · intro hx
                                exact Option.noConfusion hx
                              · intro hf
                                exact Bool.noConfusion hf
                              · intro _
                                refine ⟨by simp [saveCustomerAt, saveCard], cp,
                                  copyCustomerFields { card := some (mkPinCard cp cc), fields := [] } env',
                                  rfl, hobj, rfl, ⟨env', cardObj, hp1, hp2, hr2, hr3⟩, ?_, ?_, ?_⟩
                                · intro t' i c0 ht' hfc'
                                  injection ht' with ht''
                                  subst ht''
                                  rw [hfc] at hfc'
                                  exact Option.noConfusion hfc'
                                · intro t' ht' hfc'
                                  simp [saveCustomerAt, saveCard]
                                · intro hx
                                  exact Option.noConfusion hx
                      | some pic =>
                          obtain ⟨i, c0⟩ := pic
                          simp only [hfc, Option.map_some'] at h
                          cases hp : pin_response resp' "store"
                              (some (copyCustomerFields
                                { c0 with card := some (mkPinCard cp cc) } env')) with
                          | error e =>
                              simp only [hp] at h
                              exact Except.noConfusion h
                          | ok pr =>
                              obtain ⟨res, n⟩ := pr
                              simp only [hp, Except.ok.injEq] at h
                              subst h
                              obtain ⟨hr1, cardObj, hr2, hr3⟩ := delCardName_shape resp resp' env' hd
                              obtain ⟨hp1, hp2⟩ := pin_response_payload resp' "store" _ (Json.obj env') (res, n) hr1 hp
                              have hobj := pin_response_obj resp' "store" _ (res, n) hp
                              simp only at hobj hp1 hp2
                              refine ⟨by simp [saveCustomerAt, saveCard], ?_, ?_, ?_, ?_⟩
                              · intro t' ht'
                                injection ht' with ht''
                                subst ht''
                                exact ⟨rfl, rfl⟩
                              · intro hx
                                exact Option.noConfusion hx
                              · intro hf
                                exact Bool.noConfusion hf
                              · intro _
                                refine ⟨by simp [saveCustomerAt, saveCard], cp,
                                  copyCustomerFields { c0 with card := some (mkPinCard cp cc) } env',
                                  rfl, hobj, rfl, ⟨env', cardObj, hp1, hp2, hr2, hr3⟩, ?_, ?_, ?_⟩
                                · intro t' i' c0' ht' hfc'
                                  injection ht' with ht''
                                  subst ht''
                                  rw [hfc] at hfc'
                                  injection hfc' with hfc''
                                  have hi : i = i' := congrArg Prod.fst hfc''
                                  subst hi
                                  simp [saveCustomerAt, saveCard]
                                · intro t' ht' hfc'
                                  injection ht' with ht''
                                  subst ht''
                                  rw [hfc] at hfc'
                                  exact Option.noConfusion hfc'
                                · intro hx
                                  exact Option.noConfusion hx
              | false =>
                  rw [hif, if_neg (by decide)] at h
                  cases hp : pin_response resp "store" ((findCustomer st (pyStr t)).map Prod.snd) with
                  | error e =>
                      simp only [hp] at h
                      exact Except.noConfusion h
                  | ok pr =>
                      obtain ⟨res, n⟩ := pr
                      simp only [hp, Except.ok.injEq] at h
                      subst h
                      have hobj := pin_response_obj resp "store" _ (res, n) hp
                      simp only at hobj
                      refine ⟨rfl, ?_, ?_, ?_, ?_⟩
                      · intro t' ht'
                        injection ht' with ht''
                        subst ht''
                        exact ⟨rfl, rfl⟩
                      · intro hx
                        exact Option.noConfusion hx
                      · intro _
                        refine ⟨rfl, ?_⟩
                        exact hobj
                      · intro hf
                        exact Bool.noConfusion hf
          | none =>
              simp only [ht] at h
              cases hif : (commit && jmember resp "response") with
              | true =>
                  rw [hif, if_pos rfl] at h
                  cases hd : delCardName resp with
                  | error e =>
                      simp only [hd] at h
                      exact Except.noConfusion h
                  | ok pe =>
                      obtain ⟨resp', env'⟩ := pe
                      simp only [hd, Option.map_none'] at h
                      cases hp : pin_response resp' "store"
                          (some (copyCustomerFields
                            { card := some (mkPinCard cp cc), fields := [] } env')) with
                      | error e =>
                          simp only [hp] at h
                          exact Except.noConfusion h
                      | ok pr =>
                          obtain ⟨res, n⟩ := pr
                          simp only [hp, Except.ok.injEq] at h
                          subst h
                          obtain ⟨hr1, cardObj, hr2, hr3⟩ := delCardName_shape resp resp' env' hd
                          obtain ⟨hp1, hp2⟩ := pin_response_payload resp' "store" _ (Json.obj env') (res, n) hr1 hp
                          have hobj := pin_response_obj resp' "store" _ (res, n) hp
                          simp only at hobj hp1 hp2
                          refine ⟨by simp [saveCustomerAt, saveCard], ?_, ?_, ?_, ?_⟩
                          · intro t' ht'
                            exact Option.noConfusion ht'
                          · intro _
                            exact ⟨rfl, rfl⟩
                          · intro hf
                            exact Bool.noConfusion hf
                          · intro _
                            refine ⟨by simp [saveCustomerAt, saveCard], cp,
                              copyCustomerFields { card := some (mkPinCard cp cc), fields := [] } env',
                              rfl, hobj, rfl, ⟨env', cardObj, hp1, hp2, hr2, hr3⟩, ?_, ?_, ?_⟩
                            · intro t' i c0 ht' hfc'
                              exact Option.noConfusion ht'
                            · intro t' ht' hfc'
                              exact Option.noConfusion ht'
                            · intro _
                              simp [saveCustomerAt, saveCard]
              | false =>
                  rw [hif, if_neg (by decide)] at h
                  cases hp : pin_response resp "store" ((none : Option (ℕ × PinCustomer)).map Prod.snd) with
                  | error e =>
                      simp only [hp] at h
                      exact Except.noConfusion h
                  | ok pr =>
                      obtain ⟨res, n⟩ := pr
                      simp only [hp, Except.ok.injEq] at h
                      subst h
                      have hobj := pin_response_obj resp "store" _ (res, n) hp
                      simp only at hobj
                      refine ⟨rfl, ?_, ?_, ?_, ?_⟩
                      · intro t' ht'
                        exact Option.noConfusion ht'
                      · intro _
                        exact ⟨rfl, rfl⟩
                      · intro _
                        refine ⟨rfl, ?_⟩
                        simpa using hobj
                      · intro hf
                        exact Bool.noConfusion hf

/-! ## The persistence branch raises when the envelope lacks a card -/

theorem purchase_missing_card_raises (money : ℚ) (cc : CreditCard) (o : Option JObj)
    (resp : JObj) (st : Store) (base cp env : JObj)
    (hb : pin_base money o = Except.ok base) (hc : pin_card cc o = Except.ok cp)
    (hv : jlookup resp "response" = some (Json.obj env))
    (hcard : jlookup env "card" = none) :
    purchase money cc o true resp st = Except.error PyErr.keyError := by
  have hm : jmember resp "response" = true := by simp [jmember, hv]
  have hdel := delCardName_no_card resp env hv hcard
  unfold purchase
  simp only [hb, hc]
  rw [hm, Bool.and_self, if_pos rfl]
  simp only [hdel]

theorem capture_missing_card_raises (money : ℚ) (auth : String) (o : Option JObj)
    (resp : JObj) (st : Store) (d env : JObj)
    (hcd : captureData money auth o = Except.ok d)
    (hv : jlookup resp "response" = some (Json.obj env))
    (hcard : jlookup env "card" = none) :
    capture money auth o true resp st = Except.error PyErr.keyError := by
  have hm : jmember resp "response" = true := by simp [jmember, hv]
  have hdel := delCardName_no_card resp env hv hcard
  unfold capture
  simp only [hcd]
  rw [hm, Bool.and_self, if_pos rfl]
  simp only [hdel]

theorem store_missing_card_raises (cc : CreditCard) (o : JObj) (resp : JObj) (st : Store)
    (email : Json) (cp env : JObj)
    (he : jlookup o "email" = some email)
    (hc : pin_card cc (some o) = Except.ok cp)
    (hv : jlookup resp "response" = some (Json.obj env))
    (hcard : jlookup env "card" = none) :
    store cc (some o) true resp st = Except.error PyErr.keyError := by
  have hm : jmember resp "response" = true := by simp [jmember, hv]
  have hdel := delCardName_no_card resp env hv hcard
  unfold store
  simp only [he, hc]
  rw [hm, Bool.and_self, if_pos rfl]
  simp only [hdel]

/-! ## Further fixtures for the store/customer claims -/

/-- A store already holding one customer persisted under token "cus_1". -/
def custStoreEx : Store :=
  { cards := [], charges := [],
    customers := [{ card := none, fields := [("token", Json.str "cus_1")] }] }

/-- Options carrying an update token on top of email and address. -/
def storeOptsEx : JObj := ("token", Json.str "cus_1") :: optsEx

/-- A structured customer reply (token plus nested card). -/
def respCusEx : JObj :=
  [("response", Json.obj
      [("token", Json.str "cus_1"), ("email", Json.str "buyer@example.com"),
       ("card", Json.obj cardRespEx)])]

/-! ## C1 — what actually gates persistence -/

/-- Counterexample to C1 as stated: with `commit=true` and a reply whose
envelope carries `success: false`, purchase still persists a StoredCard
and a Charge and returns the Charge, while classifying FAILURE — the
persistence guard tests only envelope presence, never the classification. -/
theorem persist_gate_counterexample :
    ∃ out, purchase (999 / 100 : ℚ) ccEx (some optsEx) true respFailEx emptyStore =
        Except.ok out ∧
      out.res.status = "FAILURE" ∧ out.store.cards.length = 1 ∧
      out.store.charges.length = 1 ∧ out.res.obj.isSome = true :=
  ⟨_, rfl, rfl, rfl, rfl, rfl⟩

/-- C1 amended: for purchase, capture and store, entities are created
exactly when the caller passed `commit=true` AND the reply carries a
top-level `response` envelope — the classification (the envelope's
`success` flag) is not consulted. -/
theorem persist_gate :
    (∀ (money : ℚ) (cc : CreditCard) (o : Option JObj) (commit : Bool) (resp : JObj)
        (st : Store) (out : PinOutcome PinCharge),
      purchase money cc o commit resp st = Except.ok out →
      ((commit && jmember resp "response") = true →
        out.store.cards.length = st.cards.length + 1 ∧
        out.store.charges.length = st.charges.length + 1 ∧
        out.res.obj.isSome = true) ∧
      ((commit && jmember resp "response") = false →
        out.store = st ∧ out.res.obj = none)) ∧
    (∀ (money : ℚ) (auth : String) (o : Option JObj) (commit : Bool) (resp : JObj)
        (st : Store) (out : PinOutcome PinCharge),
      capture money auth o commit resp st = Except.ok out →
      out.store.cards = st.cards ∧
      ((commit && jmember resp "response") = true →
        out.store.charges.length = st.charges.length + 1 ∧ out.res.obj.isSome = true) ∧
      ((commit && jmember resp "response") = false →
        out.store = st ∧ out.res.obj = none)) ∧
    (∀ (cc : CreditCard) (o : JObj) (commit : Bool) (resp : JObj) (st : Store)
        (out : PinOutcome PinCustomer),
      store cc (some o) commit resp st = Except.ok out →
      ((commit && jmember resp "response") = true →
        out.store.cards.length = st.cards.length + 1) ∧
      ((commit && jmember resp "response") = false → out.store = st)) := by
  refine ⟨?_, ?_, ?_⟩
  · intro money cc o commit resp st out h
    obtain ⟨-, h2, h3⟩ := purchase_shape money cc o commit resp st out h
    exact ⟨fun hc => ⟨(h2 hc).1, (h2 hc).2.1, (h2 hc).2.2.1⟩, h3⟩
  · intro money auth o commit resp st out h
    obtain ⟨h1, -, h3, h4⟩ := capture_shape money auth o commit resp st out h
    exact ⟨h1, fun hc => ⟨(h3 hc).1, (h3 hc).2.1⟩, h4⟩
  · intro cc o commit resp st out h
    obtain ⟨-, -, -, h4, h5⟩ := store_shape cc o commit resp st out h
    exact ⟨fun hc => (h5 hc).1, fun hc => (h4 hc).1⟩

/-- Witness for C1's amended gate on a committed successful purchase. -/
theorem persist_gate_witness :
    ∃ out, purchase (999 / 100 : ℚ) ccEx (some optsEx) true respOkEx emptyStore =
        Except.ok out ∧
      out.store.cards.length = 1 ∧ out.store.charges.length = 1 ∧
      out.res.obj.isSome = true := by
  refine ⟨_, rfl, ?_⟩
  exact (persist_gate.1 (999 / 100 : ℚ) ccEx (some optsEx) true respOkEx emptyStore _ rfl).1 rfl

/-! ## C9 — commit=false performs no writes -/

/-- Counterexample to C9 as stated: with `commit=false`, a store call
whose options token matches an existing customer returns that customer
in the persisted-entity slot — the slot is not null, although no write
happened. -/
theorem dry_run_null_obj_counterexample :
    ∃ out, store ccEx (some storeOptsEx) false [] custStoreEx = Except.ok out ∧
      out.store = custStoreEx ∧ out.res.obj.isSome = true :=
  ⟨_, rfl, rfl, rfl⟩

/-- C9 amended: with `commit=false` the reply is still classified but the
store is left untouched for all three operations; the persisted-entity
slot is null for purchase and capture, while store returns the customer
found by the options token (null when there is none). -/
theorem dry_run_no_writes :
    (∀ (money : ℚ) (cc : CreditCard) (o : Option JObj) (resp : JObj) (st : Store)
        (out : PinOutcome PinCharge),
      purchase money cc o false resp st = Except.ok out →
      out.store = st ∧ out.res.obj = none) ∧
    (∀ (money : ℚ) (auth : String) (o : Option JObj) (resp : JObj) (st : Store)
        (out : PinOutcome PinCharge),
      capture money auth o false resp st = Except.ok out →
      out.store = st ∧ out.res.obj = none) ∧
    (∀ (cc : CreditCard) (o : JObj) (resp : JObj) (st : Store)
        (out : PinOutcome PinCustomer),
      store cc (some o) false resp st = Except.ok out →
      out.store = st ∧
      out.res.obj = (match jlookup o "token" with
                     | some t => (findCustomer st (pyStr t)).map Prod.snd
                     | none => none)) := by
  refine ⟨?_, ?_, ?_⟩
  · intro money cc o resp st out h
    exact (purchase_shape money cc o false resp st out h).2.2 (by rw [Bool.false_and])
  · intro money auth o resp st out h
    exact (capture_shape money auth o false resp st out h).2.2.2 (by rw [Bool.false_and])
  · intro cc o resp st out h
    exact (store_shape cc o false resp st out h).2.2.2.1 (by rw [Bool.false_and])

/-- Witness for C9 on a dry-run purchase against a successful reply. -/
theorem dry_run_no_writes_witness :
    ∃ out, purchase (999 / 100 : ℚ) ccEx (some optsEx) false respOkEx emptyStore =
        Except.ok out ∧
      out.store = emptyStore ∧ out.res.obj = none := by
  refine ⟨_, rfl, ?_⟩
  exact dry_run_no_writes.1 (999 / 100 : ℚ) ccEx (some optsEx) respOkEx emptyStore _ rfl

/-! ## C10 — the shallow copy mutates the returned response -/

/-- C10: whenever the persistence branch of purchase, capture or store
runs to completion, the envelope returned in the result (and carried by
the notification) has lost the `name` key of its nested card object —
the `copy` is shallow, so `del response['card']['name']` mutates the
shared card dict; and when the envelope has no `card` key the branch
raises `KeyError`. -/
theorem persist_branch_mutates :
    (∀ (money : ℚ) (cc : CreditCard) (o : Option JObj) (commit : Bool) (resp : JObj)
        (st : Store) (out : PinOutcome PinCharge),
      purchase money cc o commit resp st = Except.ok out →
      (commit && jmember resp "response") = true →
      ∃ env cardObj, out.res.response = Json.obj env ∧ out.notif.payload = Json.obj env ∧
        jlookup env "card" = some (Json.obj cardObj) ∧ jlookup cardObj "name" = none) ∧
    (∀ (money : ℚ) (auth : String) (o : Option JObj) (commit : Bool) (resp : JObj)
        (st : Store) (out : PinOutcome PinCharge),
      capture money auth o commit resp st = Except.ok out →
      (commit && jmember resp "response") = true →
      ∃ env cardObj, out.res.response = Json.obj env ∧ out.notif.payload = Json.obj env ∧
        jlookup env "card" = some (Json.obj cardObj) ∧ jlookup cardObj "name" = none) ∧
    (∀ (cc : CreditCard) (o : JObj) (commit : Bool) (resp : JObj) (st : Store)
        (out : PinOutcome PinCustomer),
      store cc (some o) commit resp st = Except.ok out →
      (commit && jmember resp "response") = true →
      ∃ env cardObj, out.res.response = Json.obj env ∧ out.notif.payload = Json.obj env ∧
        jlookup env "card" = some (Json.obj cardObj) ∧ jlookup cardObj "name" = none) ∧
    (∀ (money : ℚ) (cc : CreditCard) (o : Option JObj) (resp : JObj) (st : Store)
        (base cp env : JObj),
      pin_base money o = Except.ok base → pin_card cc o = Except.ok cp →
      jlookup resp "response" = some (Json.obj env) → jlookup env "card" = none →
      purchase money cc o true resp st = Except.error PyErr.keyError) ∧
    (∀ (money : ℚ) (auth : String) (o : Option JObj) (resp : JObj) (st : Store)
        (d env : JObj),
      captureData money auth o = Except.ok d →
      jlookup resp "response" = some (Json.obj env) → jlookup env "card" = none →
      capture money auth o true resp st = Except.error PyErr.keyError) ∧
    (∀ (cc : CreditCard) (o : JObj) (resp : JObj) (st : Store) (email : Json) (cp env : JObj),
      jlookup o "email" = some email → pin_card cc (some o) = Except.ok cp →
      jlookup resp "response" = some (Json.obj env) → jlookup env "card" = none →
      store cc (some o) true resp st = Except.error PyErr.keyError) := by
  refine ⟨?_, ?_, ?_, ?_, ?_, ?_⟩
  · intro money cc o commit resp st out h hc
    exact ((purchase_shape money cc o commit resp st out h).2.1 hc).2.2.2
  · intro money auth o commit resp st out h hc
    exact ((capture_shape money auth o commit resp st out h).2.2.1 hc).2.2
  · intro cc o commit resp st out h hc
    obtain ⟨-, cp, c, -, -, -, hmut, -⟩ := (store_shape cc o commit resp st out h).2.2.2.2 hc
    exact hmut
  · exact purchase_missing_card_raises
  · exact capture_missing_card_raises
  · exact store_missing_card_raises

/-- Witness for C10 on a committed purchase: the returned envelope's card
object no longer carries its `name` key. -/
theorem persist_branch_mutates_witness :
    ∃ out, purchase (999 / 100 : ℚ) ccEx (some optsEx) true respOkEx emptyStore =
        Except.ok out ∧
      ∃ env cardObj, out.res.response = Json.obj env ∧ out.notif.payload = Json.obj env ∧
        jlookup env "card" = some (Json.obj cardObj) ∧ jlookup cardObj "name" = none := by
  refine ⟨_, rfl, ?_⟩
  exact persist_branch_mutates.1 (999 / 100 : ℚ) ccEx (some optsEx) true respOkEx emptyStore _ rfl rfl

/-! ## C6 — store URL dispatch and customer upsert -/

/-- C6: store with an options token PUTs to `/customers/{token}` and, on
a committed structured reply, updates the customer found by that token in
place (a failed lookup becomes a fresh create and never fails the call);
without a token it POSTs to `/customers` and creates a new customer; in
every persisting case the customer's card reference is the newly built
stored card. -/
theorem store_customer_upsert (cc : CreditCard) (o : JObj) (commit : Bool) (resp : JObj)
    (st : Store) (out : PinOutcome PinCustomer)
    (h : store cc (some o) commit resp st = Except.ok out) :
    (∀ t, jlookup o "token" = some t →
        out.req.method = "put" ∧ out.req.url = "/customers/" ++ pyStr t) ∧
    (jlookup o "token" = none →
        out.req.method = "post" ∧ out.req.url = "/customers") ∧
    ((commit && jmember resp "response") = true →
        ∃ cp c, pin_card cc (some o) = Except.ok cp ∧
          out.res.obj = some c ∧ c.card = some (mkPinCard cp cc) ∧
          (∀ t i c0, jlookup o "token" = some t → findCustomer st (pyStr t) = some (i, c0) →
              out.store.customers = st.customers.set i c) ∧
          (∀ t, jlookup o "token" = some t → findCustomer st (pyStr t) = none →
              out.store.customers = st.customers ++ [c]) ∧
          (jlookup o "token" = none → out.store.customers = st.customers ++ [c])) := by
  obtain ⟨-, h2, h3, -, h5⟩ := store_shape cc o commit resp st out h
  refine ⟨h2, h3, ?_⟩
  intro hc
  obtain ⟨-, cp, c, hcp, hobj, hcard, -, hs1, hs2, hs3⟩ := h5 hc
  exact ⟨cp, c, hcp, hobj, hcard, hs1, hs2, hs3⟩

/-- Witness for C6: a committed tokenized store call PUTs to the customer
resource and overwrites the customer found under "cus_1", pointing it at
the new stored card. -/
theorem store_customer_upsert_witness :
    ∃ out, store ccEx (some storeOptsEx) true respCusEx custStoreEx = Except.ok out ∧
      out.req.method = "put" ∧ out.req.url = "/customers/cus_1" ∧
      ∃ cp c, pin_card ccEx (some storeOptsEx) = Except.ok cp ∧
        out.res.obj = some c ∧ c.card = some (mkPinCard cp ccEx) ∧
        out.store.customers = custStoreEx.customers.set 0 c := by
  refine ⟨_, rfl, ?_⟩
  obtain ⟨hput, -, hpersist⟩ :=
    store_customer_upsert ccEx storeOptsEx true respCusEx custStoreEx _ rfl
  obtain ⟨cp, c, hcp, hobj, hcard, hs1, -, -⟩ := hpersist rfl
  exact ⟨(hput _ rfl).1, (hput _ rfl).2, cp, c, hcp, hobj, hcard, hs1 _ 0 _ rfl rfl⟩
